import Mathlib

/-!
# Verification of the bibbox-website frontend session/token/idle logic

A shallow embedding of the session, token and idle-reset logic of the React
frontend entry point (`App`): the local-storage token store (`getToken`,
`storeToken`, `removeToken`), the startup negotiation effect, the reconnect
handler, the action relay (`handleAction`), the idle handler (`handleIdle`)
and the translation loader (`loadTranslations` / `activateTranslations`),
together with theorems about their contracts.

Conventions: `localStorage.getItem` returning `null` is modelled as `none`;
the JS number `NaN` (the result of `parseInt` on a non-numeric input) is
modelled as `none : Option Int`; the JS return value `false` of `getToken`
is modelled as `none : Option String`.
-/

namespace Bibbox

/-- A snapshot of the three browser `localStorage` keys the app uses:
`token`, `expire` and `uniqueId`.  `none` models an absent key. -/
structure Storage where
  token : Option String
  expire : Option String
  uniqueId : Option String
deriving DecidableEq

/-- Value of a list of decimal digit characters; `none` when no digit was
read, which is how JS `parseInt` produces `NaN`. -/
def digitsVal (cs : List Char) : Option Nat :=
  match cs with
  | [] => none
  | _ => some (cs.foldl (fun a c => a * 10 + (c.toNat - 48)) 0)

/-- JS `parseInt` on a string: skip leading whitespace, read an optional
sign and then the leading run of decimal digits; `none` models `NaN`. -/
def parseIntString (s : String) : Option Int :=
  match s.toList.dropWhile (fun c => c.isWhitespace) with
  | '-' :: rest => (digitsVal (rest.takeWhile (fun c => c.isDigit))).map (fun n => -(n : Int))
  | '+' :: rest => (digitsVal (rest.takeWhile (fun c => c.isDigit))).map (fun n => (n : Int))
  | cs => (digitsVal (cs.takeWhile (fun c => c.isDigit))).map (fun n => (n : Int))

/-- JS `parseInt(localStorage.getItem(k))`: `getItem` yields `null` for a
missing key, and `parseInt(null)` is `NaN` (modelled as `none`). -/
def jsParseInt : Option String → Option Int
  | none => none
  | some s => parseIntString s

/-- JS strict equality `x === null` where `x` holds a number: always
`false`, because `parseInt` returns a number (possibly `NaN`), never
`null`. -/
def numStrictEqNull (_ : Option Int) : Bool := false

/-- JS `<=` whose left side may be `NaN`: every comparison against `NaN`
is `false`. -/
def nanLe (x : Option Int) (n : Int) : Bool :=
  match x with
  | none => false
  | some v => decide (v ≤ n)

/-- JS `parseInt` applied to a value that is already a number: `NaN` stays
`NaN` and the integral values appearing here pass through unchanged. -/
def parseIntNum (x : Option Int) : Option Int := x

/-- Embeds `getToken` of the app: read and parse the `expire` entry, return
the JS value `false` (here `none`) when `expire === null` or the parsed
expiry is `<= now`, otherwise return the `token` entry when it is present
and `false` when it is `null`. -/
def getToken (st : Storage) (now : Int) : Option String :=
  let expire := jsParseInt st.expire
  if numStrictEqNull expire || nanLe (parseIntNum expire) now then
    none
  else
    match st.token with
    | some token => some token
    | none => none

/-- Embeds `storeToken`: persist token value, expiry and the current
configuration identifier, overwriting any prior entries. -/
def storeToken (uniqueId token expire : String) (_ : Storage) : Storage :=
  ⟨some token, some expire, some uniqueId⟩

/-- Embeds `removeToken`: remove all three entries. -/
def removeToken (_ : Storage) : Storage :=
  ⟨none, none, none⟩

/-- C1: for a stored token whose `expire` entry parses to `e`, `getToken`
returns the token value whenever `now < e`, returns the absent signal
whenever `e ≤ now`, and in particular returns absent at the boundary
`now = e`. -/
theorem getToken_expiry_boundary (st : Storage) (tok : String) (e now : Int)
    (htok : st.token = some tok) (hexp : jsParseInt st.expire = some e) :
    (now < e → getToken st now = some tok) ∧
    (e ≤ now → getToken st now = none) ∧
    getToken st e = none := by
  refine ⟨fun h => ?_, fun h => ?_, ?_⟩
  · simp [getToken, numStrictEqNull, nanLe, parseIntNum, hexp, htok, not_le.mpr h]
  · simp [getToken, numStrictEqNull, nanLe, parseIntNum, hexp, h]
  · simp [getToken, numStrictEqNull, nanLe, parseIntNum, hexp]

/-- Witness for C1: token `T1` with expiry `100` is returned at time `99`
and absent at the boundary time `100`. -/
theorem getToken_expiry_boundary_witness :
    getToken ⟨some "T1", some "100", some "A"⟩ 99 = some "T1" ∧
    getToken ⟨some "T1", some "100", some "A"⟩ 100 = none :=
  ⟨(getToken_expiry_boundary ⟨some "T1", some "100", some "A"⟩ "T1" 100 99
      rfl (by decide)).1 (by decide),
   (getToken_expiry_boundary ⟨some "T1", some "100", some "A"⟩ "T1" 100 100
      rfl (by decide)).2.2⟩

/-- C9: with a `token` entry present but no `expire` entry stored,
`getToken` returns the token value: `parseInt(null)` is `NaN`, which
satisfies neither the `=== null` check nor the `<= now` check. -/
theorem getToken_missing_expire (st : Storage) (tok : String) (now : Int)
    (htok : st.token = some tok) (hexp : st.expire = none) :
    getToken st now = some tok := by
  simp [getToken, jsParseInt, numStrictEqNull, nanLe, parseIntNum, hexp, htok]

/-- Witness for C9: a token with no stored expiry is returned as valid. -/
theorem getToken_missing_expire_witness :
    getToken ⟨some "T1", none, some "A"⟩ 7 = some "T1" :=
  getToken_missing_expire ⟨some "T1", none, some "A"⟩ "T1" 7 rfl rfl

/-- The socket messages the frontend emits: `GetToken`, `ClientReady`, and
the two `ClientEvent` shapes (`Reset` with the token only, `Action` with
name, token and data). -/
inductive Msg where
  | getTokenReq (uniqueId : String)
  | clientReady (token : String)
  | resetEvent (token : String)
  | actionEvent (action : String) (token : String) (data : String)
deriving DecidableEq

/-- What a handler emits to the outside: socket messages and `alert`
dialogs. -/
structure Output where
  emits : List Msg
  alerts : List String
deriving DecidableEq

/-- The alert text shown when no valid token is available. -/
def accessDeniedAlert : String := "Token not valid. Access denied"

/-- Modelled from the spec: the cancellable idle deadline of the Idle
Monitor (realized by the external `react-idle-timer` component, which is
not part of this repository).  It counts down while running; once the
deadline fires it stays idle until explicitly reset. -/
inductive TimerState where
  | running (remaining : Nat)
  | idle
deriving DecidableEq

/-- Embeds the guarded `idleTimerRef.current.reset()` calls: a `null` ref
(`none`) is left untouched, otherwise the countdown restarts at the
configured inactivity timeout. -/
def resetTimer (timeout : Nat) : Option TimerState → Option TimerState
  | none => none
  | some _ => some (TimerState.running timeout)

/-- The client-side state the handlers read and write: the local storage,
the idle-timer ref, the current machine state's step, and the current
time in seconds. -/
structure AppState where
  storage : Storage
  timer : Option TimerState
  machineStep : String
  now : Int
deriving DecidableEq

/-- Embeds `handleAction`: resolve the token (alert and abort when
absent), reset the idle timer, then emit a `Reset` client event when the
action is `"reset"` and an `Action` client event otherwise. -/
def handleAction (timeout : Nat) (action data : String) (s : AppState) :
    AppState × Output :=
  match getToken s.storage s.now with
  | none => (s, ⟨[], [accessDeniedAlert]⟩)
  | some token =>
    let s2 : AppState := { s with timer := resetTimer timeout s.timer }
    if action = "reset" then
      (s2, ⟨[Msg.resetEvent token], []⟩)
    else
      (s2, ⟨[Msg.actionEvent action token data], []⟩)

/-- Embeds `handleIdle`: resolve the token (alert and abort when absent);
emit a `Reset` client event when the machine state's step is not
`"initial"`, otherwise restart the idle timer without emitting. -/
def handleIdle (timeout : Nat) (s : AppState) : AppState × Output :=
  match getToken s.storage s.now with
  | none => (s, ⟨[], [accessDeniedAlert]⟩)
  | some token =>
    if s.machineStep ≠ "initial" then
      (s, ⟨[Msg.resetEvent token], []⟩)
    else
      ({ s with timer := resetTimer timeout s.timer }, ⟨[], []⟩)

/-- Embeds the `socket.on('reconnect')` handler: re-read the token store;
alert and stop when the token is absent, otherwise emit `ClientReady`
carrying the token. -/
def onReconnect (st : Storage) (now : Int) : Output :=
  match getToken st now with
  | none => ⟨[], [accessDeniedAlert]⟩
  | some token => ⟨[Msg.clientReady token], []⟩

/-- C2: `handleAction` aborts with the access-denied alert and emits no
message when the token is absent; with a token present it resets the idle
countdown and emits exactly the `Reset` event (token only) for action
`"reset"`, and exactly the `Action` event (name, token, data)
otherwise. -/
theorem handleAction_send_contract (timeout : Nat) (action data : String)
    (s : AppState) :
    (getToken s.storage s.now = none →
      handleAction timeout action data s = (s, ⟨[], [accessDeniedAlert]⟩)) ∧
    (∀ token, getToken s.storage s.now = some token →
      (handleAction timeout action data s).1 =
        { s with timer := resetTimer timeout s.timer } ∧
      (action = "reset" →
        (handleAction timeout action data s).2 = ⟨[Msg.resetEvent token], []⟩) ∧
      (action ≠ "reset" →
        (handleAction timeout action data s).2 =
          ⟨[Msg.actionEvent action token data], []⟩)) := by
  constructor
  · intro h
    simp [handleAction, h]
  · intro token h
    refine ⟨?_, fun ha => ?_, fun ha => ?_⟩
    · by_cases ha : action = "reset" <;> simp [handleAction, h, ha]
    · simp [handleAction, h, ha]
    · simp [handleAction, h, ha]

/-- Witness for C2: with a valid stored token, sending `"checkout"` resets
the countdown and emits the named `Action` event. -/
theorem handleAction_send_contract_witness :
    (handleAction 60 "checkout" "d"
        ⟨⟨some "T1", some "100", some "A"⟩, some (TimerState.running 3), "status", 50⟩).1 =
      ⟨⟨some "T1", some "100", some "A"⟩, some (TimerState.running 60), "status", 50⟩ ∧
    (handleAction 60 "checkout" "d"
        ⟨⟨some "T1", some "100", some "A"⟩, some (TimerState.running 3), "status", 50⟩).2 =
      ⟨[Msg.actionEvent "checkout" "T1" "d"], []⟩ := by
  have h := (handleAction_send_contract 60 "checkout" "d"
      ⟨⟨some "T1", some "100", some "A"⟩, some (TimerState.running 3), "status", 50⟩).2
      "T1" (by decide)
  exact ⟨h.1, h.2.2 (by decide)⟩

/-- C3: at the idle deadline, `handleIdle` with a present token emits a
`Reset` event exactly when the step is not `"initial"`; at the initial
step it emits nothing and restarts the countdown; with the token absent
it alerts and aborts without emitting. -/
theorem handleIdle_deadline_contract (timeout : Nat) (s : AppState) :
    (getToken s.storage s.now = none →
      handleIdle timeout s = (s, ⟨[], [accessDeniedAlert]⟩)) ∧
    (∀ token, getToken s.storage s.now = some token →
      ((handleIdle timeout s).2.emits = [Msg.resetEvent token] ↔
        s.machineStep ≠ "initial") ∧
      (s.machineStep = "initial" →
        handleIdle timeout s =
          ({ s with timer := resetTimer timeout s.timer }, ⟨[], []⟩)) ∧
      (s.machineStep ≠ "initial" →
        handleIdle timeout s = (s, ⟨[Msg.resetEvent token], []⟩))) := by
  constructor
  · intro h
    simp [handleIdle, h]
  · intro token h
    by_cases hstep : s.machineStep = "initial" <;>
      simp [handleIdle, h, hstep]

/-- Witness for C3: at a non-initial step with a valid token the idle
deadline emits exactly one `Reset` event; at the initial step it restarts
the countdown and emits nothing. -/
theorem handleIdle_deadline_contract_witness :
    handleIdle 60 ⟨⟨some "T1", some "100", some "A"⟩, some TimerState.idle, "status", 50⟩ =
      (⟨⟨some "T1", some "100", some "A"⟩, some TimerState.idle, "status", 50⟩,
        ⟨[Msg.resetEvent "T1"], []⟩) ∧
    handleIdle 60 ⟨⟨some "T1", some "100", some "A"⟩, some TimerState.idle, "initial", 50⟩ =
      (⟨⟨some "T1", some "100", some "A"⟩, some (TimerState.running 60), "initial", 50⟩,
        ⟨[], []⟩) :=
  ⟨((handleIdle_deadline_contract 60
      ⟨⟨some "T1", some "100", some "A"⟩, some TimerState.idle, "status", 50⟩).2
      "T1" (by decide)).2.2 (by decide),
   ((handleIdle_deadline_contract 60
      ⟨⟨some "T1", some "100", some "A"⟩, some TimerState.idle, "initial", 50⟩).2
      "T1" (by decide)).2.1 (by decide)⟩

/-- C5: on a reconnect event the store is re-read; with the token absent
the access-denied alert is surfaced and no `ClientReady` is sent; with the
token present exactly a `ClientReady` carrying it is sent. -/
theorem reconnect_contract (st : Storage) (now : Int) :
    (getToken st now = none → onReconnect st now = ⟨[], [accessDeniedAlert]⟩) ∧
    (∀ token, getToken st now = some token →
      onReconnect st now = ⟨[Msg.clientReady token], []⟩) := by
  constructor
  · intro h
    simp [onReconnect, h]
  · intro token h
    simp [onReconnect, h]

/-- Witness for C5: with an empty store, a reconnect surfaces the alert
and sends nothing; with a valid token it resends `ClientReady`. -/
theorem reconnect_contract_witness :
    onReconnect ⟨none, none, none⟩ 50 = ⟨[], [accessDeniedAlert]⟩ ∧
    onReconnect ⟨some "T1", some "100", some "A"⟩ 50 = ⟨[Msg.clientReady "T1"], []⟩ :=
  ⟨(reconnect_contract ⟨none, none, none⟩ 50).1 (by decide),
   (reconnect_contract ⟨some "T1", some "100", some "A"⟩ 50).2 "T1" (by decide)⟩

/-- Embeds the first step of the `useEffect` setup: when the stored
`uniqueId` entry differs from the configuration identifier being loaded
(`localStorage.getItem('uniqueId') !== uniqueId`), the previous token is
removed before anything else runs. -/
def initialStorage (uniqueId : String) (st : Storage) : Storage :=
  if st.uniqueId ≠ some uniqueId then removeToken st else st

/-- Embeds the session-negotiation part of the `useEffect` setup: after
the possible `removeToken`, read the token; when absent emit `GetToken`
with the configuration identifier, otherwise emit `ClientReady` with the
token.  Returns the storage as negotiation begins and the emitted
messages. -/
def setupEffect (uniqueId : String) (st : Storage) (now : Int) :
    Storage × List Msg :=
  let st2 := initialStorage uniqueId st
  match getToken st2 now with
  | none => (st2, [Msg.getTokenReq uniqueId])
  | some token => (st2, [Msg.clientReady token])

/-- C4: loading a configuration identifier different from the stored one
clears all three store entries, and the only message the setup then sends
is the `GetToken` request — in particular no `ClientReady` ever carries
the stale token. -/
theorem setup_config_change_clears_token (uniqueId : String) (st : Storage)
    (now : Int) (h : st.uniqueId ≠ some uniqueId) :
    (setupEffect uniqueId st now).1 = ⟨none, none, none⟩ ∧
    (setupEffect uniqueId st now).2 = [Msg.getTokenReq uniqueId] := by
  have hclear : initialStorage uniqueId st = ⟨none, none, none⟩ := by
    simp [initialStorage, removeToken, h]
  constructor <;>
    simp [setupEffect, hclear, getToken, jsParseInt, numStrictEqNull, nanLe,
      parseIntNum]

/-- Witness for C4: a store holding a live token for configuration `A`
is cleared when configuration `B` loads, and only `GetToken` is sent. -/
theorem setup_config_change_clears_token_witness :
    (setupEffect "B" ⟨some "T1", some "100", some "A"⟩ 50).1 = ⟨none, none, none⟩ ∧
    (setupEffect "B" ⟨some "T1", some "100", some "A"⟩ 50).2 = [Msg.getTokenReq "B"] :=
  setup_config_change_clears_token "B" ⟨some "T1", some "100", some "A"⟩ 50 (by decide)

/-- C6: on initial channel availability exactly one message is sent: the
`GetToken` request carrying the configuration identifier when the (possibly
cleared) store yields no token, and the `ClientReady` carrying the token
otherwise. -/
theorem setup_initial_negotiation (uniqueId : String) (st : Storage) (now : Int) :
    (getToken (initialStorage uniqueId st) now = none →
      (setupEffect uniqueId st now).2 = [Msg.getTokenReq uniqueId]) ∧
    (∀ token, getToken (initialStorage uniqueId st) now = some token →
      (setupEffect uniqueId st now).2 = [Msg.clientReady token]) ∧
    (setupEffect uniqueId st now).2.length = 1 := by
  refine ⟨fun h => ?_, fun token h => ?_, ?_⟩
  · simp [setupEffect, h]
  · simp [setupEffect, h]
  · rcases h : getToken (initialStorage uniqueId st) now with _ | token <;>
      simp [setupEffect, h]

/-- Witness for C6: with a live token for the loaded configuration the
setup sends exactly `ClientReady`; with an empty store it sends exactly
`GetToken`. -/
theorem setup_initial_negotiation_witness :
    (setupEffect "A" ⟨some "T1", some "100", some "A"⟩ 50).2 = [Msg.clientReady "T1"] ∧
    (setupEffect "A" ⟨none, none, none⟩ 50).2 = [Msg.getTokenReq "A"] ∧
    (setupEffect "A" ⟨some "T1", some "100", some "A"⟩ 50).2.length = 1 :=
  ⟨(setup_initial_negotiation "A" ⟨some "T1", some "100", some "A"⟩ 50).2.1
      "T1" (by decide),
   (setup_initial_negotiation "A" ⟨none, none, none⟩ 50).1 (by decide),
   (setup_initial_negotiation "A" ⟨some "T1", some "100", some "A"⟩ 50).2.2⟩

/-- The supported language codes, as in `loadTranslations`. -/
def supportedLanguageCodes : List String := ["da", "en"]

/-- The bundle path `'../../public/lang/' + code + '-comp.json'` handed to
the dynamic import. -/
def langBundle (code : String) : String :=
  "../../public/lang/" ++ code ++ "-comp.json"

/-- The translation state set by `activateTranslations`: the loaded
message bundle and the language code passed to `setLanguage` (the
`IntlProvider` locale). -/
structure Translations where
  messages : String
  locale : String
deriving DecidableEq

/-- Embeds `activateTranslations`: set the messages to the loaded data and
the language to the given code. -/
def activateTranslations (data languageCode : String) : Translations :=
  ⟨data, languageCode⟩

/-- Embeds `loadTranslations`: select the requested code when it is
supported and `'en'` otherwise, import the bundle for the selected code,
then activate it under the original (unselected) code.  No alert path
exists in this function. -/
def loadTranslations (languageCode : String) : Translations × Output :=
  let selectedLanguageCode :=
    if supportedLanguageCodes.contains languageCode then languageCode else "en"
  (activateTranslations (langBundle selectedLanguageCode) languageCode, ⟨[], []⟩)

/-- C8: a supported code loads its matching bundle; an unsupported code
loads the baseline English bundle; no alert is surfaced either way. -/
theorem loadTranslations_fallback (languageCode : String) :
    (supportedLanguageCodes.contains languageCode = true →
      (loadTranslations languageCode).1.messages = langBundle languageCode) ∧
    (supportedLanguageCodes.contains languageCode = false →
      (loadTranslations languageCode).1.messages = langBundle "en") ∧
    (loadTranslations languageCode).2.alerts = [] := by
  refine ⟨fun h => ?_, fun h => ?_, ?_⟩
  · have hm : languageCode ∈ supportedLanguageCodes := by simpa using h
    simp [loadTranslations, activateTranslations, hm]
  · have hm : languageCode ∉ supportedLanguageCodes := by simpa using h
    simp [loadTranslations, activateTranslations, hm]
  · rfl

/-- Witness for C8: unsupported `"fr"` loads the English bundle with no
alert, and supported `"da"` loads the Danish bundle. -/
theorem loadTranslations_fallback_witness :
    (loadTranslations "fr").1.messages = langBundle "en" ∧
    (loadTranslations "fr").2.alerts = [] ∧
    (loadTranslations "da").1.messages = langBundle "da" :=
  ⟨(loadTranslations_fallback "fr").2.1 (by decide),
   (loadTranslations_fallback "fr").2.2,
   (loadTranslations_fallback "da").1 (by decide)⟩

/-- C10: after a configuration with an unsupported default language code,
the activated locale is the unsupported code itself while the loaded
bundle is the baseline English one — and the code is never `"en"`, so the
locale and the catalog language diverge. -/
theorem unsupported_language_locale_divergence (languageCode : String)
    (h : supportedLanguageCodes.contains languageCode = false) :
    (loadTranslations languageCode).1 = ⟨langBundle "en", languageCode⟩ ∧
    languageCode ≠ "en" := by
  constructor
  · have hm : languageCode ∉ supportedLanguageCodes := by simpa using h
    simp [loadTranslations, activateTranslations, hm]
  · intro he
    subst he
    simp [supportedLanguageCodes] at h

/-- Witness for C10: configuration language `"fr"` activates locale `"fr"`
over the English message bundle. -/
theorem unsupported_language_locale_divergence_witness :
    (loadTranslations "fr").1 = ⟨langBundle "en", "fr"⟩ ∧ ("fr" : String) ≠ "en" :=
  unsupported_language_locale_divergence "fr" (by decide)

/-- The events driving the idle monitor: one unit of time passing, an
`UpdateState` message from the server, and a user action relayed through
`handleAction`.  The latter two are the qualifying activity that resets
the idle countdown. -/
inductive Ev where
  | tick
  | updateState (step : String)
  | userAction (action : String) (data : String)
deriving DecidableEq

/-- Embeds the `socket.on('UpdateState')` handler: reset the idle timer
and replace the machine state. -/
def onUpdateState (timeout : Nat) (step : String) (s : AppState) : AppState :=
  { s with timer := resetTimer timeout s.timer, machineStep := step }

/-- Modelled from the spec: one unit of time passes.  A running countdown
decreases; when it reaches its deadline the timer goes idle and the
`handleIdle` callback runs; an idle or absent timer is unaffected by
time. -/
def tickStep (timeout : Nat) (s : AppState) : AppState × Output :=
  match s.timer with
  | some (TimerState.running (n + 1)) =>
      ({ s with now := s.now + 1, timer := some (TimerState.running n) }, ⟨[], []⟩)
  | some (TimerState.running 0) =>
      handleIdle timeout { s with now := s.now + 1, timer := some TimerState.idle }
  | _ => ({ s with now := s.now + 1 }, ⟨[], []⟩)

/-- One event of the client event loop. -/
def stepEv (timeout : Nat) (s : AppState) : Ev → AppState × Output
  | Ev.tick => tickStep timeout s
  | Ev.updateState step => (onUpdateState timeout step s, ⟨[], []⟩)
  | Ev.userAction action data => handleAction timeout action data s

/-- The state after running a list of events. -/
def runState (timeout : Nat) (s : AppState) : List Ev → AppState
  | [] => s
  | e :: rest => runState timeout (stepEv timeout s e).1 rest

/-- The messages emitted while running a list of events. -/
def runEmits (timeout : Nat) (s : AppState) : List Ev → List Msg
  | [] => []
  | e :: rest =>
      (stepEv timeout s e).2.emits ++ runEmits timeout (stepEv timeout s e).1 rest

/-- Number of reset-action messages in a list of emitted messages. -/
def countResets (ms : List Msg) : Nat :=
  ms.countP fun m =>
    match m with
    | Msg.resetEvent _ => true
    | _ => false

/-- A tick on a stalled timer (absent ref, or fired and not reset) emits
nothing and leaves the timer stalled. -/
theorem tickStep_stalled (timeout : Nat) (s : AppState)
    (h : s.timer = none ∨ s.timer = some TimerState.idle) :
    (tickStep timeout s).2.emits = [] ∧
    ((tickStep timeout s).1.timer = none ∨
      (tickStep timeout s).1.timer = some TimerState.idle) := by
  rcases h with h | h <;> simp [tickStep, h]

/-- Ticks on a stalled timer never emit any message. -/
theorem runEmits_stalled (timeout : Nat) (evs : List Ev)
    (hev : ∀ e ∈ evs, e = Ev.tick) :
    ∀ s : AppState,
      (s.timer = none ∨ s.timer = some TimerState.idle) →
      runEmits timeout s evs = [] := by
  induction evs with
  | nil => intro s _; rfl
  | cons e rest ih =>
    intro s hs
    have he : e = Ev.tick := hev e (List.mem_cons_self e rest)
    subst he
    have h1 := tickStep_stalled timeout s hs
    have hrun : runEmits timeout s (Ev.tick :: rest) =
        (tickStep timeout s).2.emits ++
          runEmits timeout (tickStep timeout s).1 rest := rfl
    rw [hrun, h1.1, List.nil_append]
    exact ih (fun x hx => hev x (List.mem_cons_of_mem _ hx)) _ h1.2

/-- A single tick either emits nothing, or emits exactly one reset event
and leaves the timer fired-and-not-reset. -/
theorem tickStep_emit_cases (timeout : Nat) (s : AppState) :
    (tickStep timeout s).2.emits = [] ∨
    (∃ token, (tickStep timeout s).2.emits = [Msg.resetEvent token] ∧
      (tickStep timeout s).1.timer = some TimerState.idle) := by
  rcases ht : s.timer with _ | ts
  · left; simp [tickStep, ht]
  · cases ts with
    | idle => left; simp [tickStep, ht]
    | running n =>
      cases n with
      | succ m => left; simp [tickStep, ht]
      | zero =>
        rcases hg : getToken s.storage (s.now + 1) with _ | token
        · left
          simp [tickStep, ht, handleIdle, hg]
        · by_cases hstep : s.machineStep = "initial"
          · left
            simp [tickStep, ht, handleIdle, hg, hstep]
          · right
            exact ⟨token, by simp [tickStep, ht, handleIdle, hg, hstep]⟩

/-- A run consisting only of ticks emits at most one reset event. -/
theorem runEmits_ticks_resets_le_one (timeout : Nat) :
    ∀ evs : List Ev, (∀ e ∈ evs, e = Ev.tick) →
      ∀ s : AppState, countResets (runEmits timeout s evs) ≤ 1 := by
  intro evs
  induction evs with
  | nil => intro _ s; simp [runEmits, countResets]
  | cons e rest ih =>
    intro hev s
    have he : e = Ev.tick := hev e (List.mem_cons_self e rest)
    subst he
    have hrest : ∀ x ∈ rest, x = Ev.tick :=
      fun x hx => hev x (List.mem_cons_of_mem _ hx)
    have hrun : runEmits timeout s (Ev.tick :: rest) =
        (tickStep timeout s).2.emits ++
          runEmits timeout (tickStep timeout s).1 rest := rfl
    rw [hrun]
    simp only [countResets, List.countP_append]
    rcases tickStep_emit_cases timeout s with hc | ⟨token, hemit, htimer⟩
    · rw [hc]
      simpa [countResets] using ih hrest (tickStep timeout s).1
    · rw [hemit, runEmits_stalled timeout rest hrest _ (Or.inr htimer)]
      simp

/-- C7: during one continuous idle period — after the idle deadline fires
only clock ticks occur, with no state update and no outgoing action — the
idle monitor emits at most one reset action, no matter how many activity
pulses occurred before the deadline. -/
theorem idle_monitor_at_most_one_reset (timeout : Nat) (s0 : AppState)
    (pre post : List Ev) (hpost : ∀ e ∈ post, e = Ev.tick) :
    countResets (runEmits timeout (runState timeout s0 pre) post) ≤ 1 :=
  runEmits_ticks_resets_le_one timeout post hpost (runState timeout s0 pre)

/-- Witness for C7: after an activity pulse, four ticks with timeout two
fire the deadline once and emit at most one reset. -/
theorem idle_monitor_at_most_one_reset_witness :
    countResets (runEmits 2 (runState 2
      ⟨⟨some "T1", some "1000", some "A"⟩, some (TimerState.running 0), "status", 50⟩
      [Ev.userAction "checkout" "d"])
      [Ev.tick, Ev.tick, Ev.tick, Ev.tick]) ≤ 1 :=
  idle_monitor_at_most_one_reset 2
    ⟨⟨some "T1", some "1000", some "A"⟩, some (TimerState.running 0), "status", 50⟩
    [Ev.userAction "checkout" "d"] [Ev.tick, Ev.tick, Ev.tick, Ev.tick]
    (by decide)

end Bibbox
